import Mathlib

/-!
Verification of the notification gateway's idempotent dispatch pipeline
(`services/api_gateway`): the Redis-backed idempotency guard and status
tracker (`status.rs`), the `create_notification` handler (`handlers.rs`),
and the broker-connection bootstrap with exponential backoff (`main.rs`).

The embedding models Redis as an association list from string keys to
entries carrying a value and an absolute expiry time; time is an explicit
`Nat` parameter.  Fallible backend calls take explicit availability flags:
`pool_ok` models whether `pool.get()` succeeds and `cmd_ok` models whether
the issued Redis command succeeds.  External HTTP lookups, the fresh
correlation id, JSON-serialization success and the broker-publish outcome
are supplied as oracle fields of a `HandlerEnv`.
-/

set_option autoImplicit false

namespace NotifGateway

/-- A Redis entry: the stored string value together with its absolute
expiry instant (seconds). -/
structure KVEntry where
  value : String
  expires_at : Nat
deriving DecidableEq, Repr

/-- The Redis key space: an association list from keys to entries. -/
abbrev KV := List (String × KVEntry)

/-- First entry stored under key `k`, ignoring expiry. -/
def kv_find : KV → String → Option KVEntry
  | [], _ => none
  | (k', e) :: rest, k => if k' = k then some e else kv_find rest k

/-- Remove every entry stored under key `k`. -/
def kv_erase : KV → String → KV
  | [], _ => []
  | (k', e) :: rest, k =>
      if k' = k then kv_erase rest k else (k', e) :: kv_erase rest k

/-- Redis GET semantics at instant `now`: a value is visible only while
`now` is strictly before its expiry. -/
def lookup_live (kv : KV) (now : Nat) (k : String) : Option String :=
  match kv_find kv k with
  | some e => if now < e.expires_at then some e.value else none
  | none => none

/-- Redis `SET key v EX ttl` at instant `now`: stores `v` under `k` with
expiry `now + ttl`, replacing any previous entry. -/
def set_ex (kv : KV) (now ttl : Nat) (k v : String) : KV :=
  (k, ⟨v, now + ttl⟩) :: kv_erase kv k

/-- Redis `SET key v NX EX ttl` at instant `now`: atomically stores `v`
iff no live value exists under `k`; returns whether the store happened,
with the resulting key space. -/
def set_nx_ex (kv : KV) (now ttl : Nat) (k v : String) : Bool × KV :=
  match lookup_live kv now k with
  | some _ => (false, kv)
  | none => (true, set_ex kv now ttl k v)

/-- Model of `StatusStore` (status.rs): the two configured TTLs, in seconds. -/
structure StatusStore where
  idem_ttl : Nat
  status_ttl : Nat
deriving DecidableEq, Repr

/-- Embedding of `StatusStore::reserve_idem` (status.rs lines 25-36).  Acquiring a pool
connection (`pool.get().await?`) propagates failure as an error; the
`SET .. NX EX` command's own failure is swallowed by `unwrap_or(false)`,
so a failed command yields `Ok(false)` with the store unchanged. -/
def reserve_idem (s : StatusStore) (kv : KV) (now : Nat)
    (pool_ok cmd_ok : Bool) (req_id : String) : Except Unit (Bool × KV) :=
  if pool_ok = false then .error ()
  else if cmd_ok = false then .ok (false, kv)
  else .ok (set_nx_ex kv now s.idem_ttl ("idem:" ++ req_id) ("1"))

/-- Embedding of `StatusStore::set_status` (status.rs lines 38-46): one pipelined
`SET` + `EXPIRE`, so the value and its expiry are written in a single
step; pool or command failure propagates as an error. -/
def set_status (s : StatusStore) (kv : KV) (now : Nat)
    (pool_ok cmd_ok : Bool) (notification_id state : String) :
    Except Unit KV :=
  if pool_ok = false then .error ()
  else if cmd_ok = false then .error ()
  else .ok (set_ex kv now s.status_ttl ("status:" ++ notification_id) state)

/-- Embedding of `StatusStore::get_status` (status.rs lines 49-54): returns the bare
stored state string, if any live one exists. -/
def get_status (s : StatusStore) (kv : KV) (now : Nat)
    (pool_ok cmd_ok : Bool) (notification_id : String) :
    Except Unit (Option String) :=
  if pool_ok = false then .error ()
  else if cmd_ok = false then .error ()
  else .ok (lookup_live kv now ("status:" ++ notification_id))

/-- Model of `NotificationType` (models.rs line 44): the closed set of channels. -/
inductive NotificationType where
  | email
  | push
deriving DecidableEq, Repr

/-- The routing-key mapping of `create_notification` (handlers.rs lines
121-124): an exhaustive match over the closed enum, no default branch. -/
def routing_key : NotificationType → String
  | .email => "email"
  | .push => "push"

/-- Model of `CreateNotificationRequest` (models.rs lines 58-66).  `user_id`,
`variables` and `metadata` are opaque payloads here, carried verbatim. -/
structure CreateNotificationRequest where
  notification_type : NotificationType
  user_id : String
  template_code : String
  vars : String
  request_id : String
  priority : Int
  metadata : Option String
deriving DecidableEq, Repr

/-- The message assembled by `create_notification` (handlers.rs lines
126-140), field for field. -/
structure PublishedMessage where
  request_id : String
  correlation_id : String
  notification_type : String
  user_id : String
  user : String
  template_code : String
  template : String
  vars : String
  priority : Int
  metadata : Option String
  attempt : Nat
  max_attempts : Nat
  created_at : Nat
deriving DecidableEq, Repr

/-- The `json!` message assembly (handlers.rs lines 126-140): request
fields, the fetched `user` and `template` data, and the system fields. -/
def compose_message (req : CreateNotificationRequest)
    (user_data template_json correlation_id : String) (now : Nat) :
    PublishedMessage :=
  { request_id := req.request_id
  , correlation_id := correlation_id
  , notification_type := routing_key req.notification_type
  , user_id := req.user_id
  , user := user_data
  , template_code := req.template_code
  , template := template_json
  , vars := req.vars
  , priority := req.priority
  , metadata := req.metadata
  , attempt := 0
  , max_attempts := 3
  , created_at := now }

/-- An HTTP response as built by the handler: status code plus the
`Envelope` fields it populates (models.rs lines 10-27); `notification_id`
is the datum carried by the success envelopes. -/
structure Response where
  status : Nat
  success : Bool
  message : String
  error_code : Option String
  notification_id : Option String
deriving DecidableEq, Repr

/-- The 202 `Envelope::ok("duplicate_request", {notification_id})`
(handlers.rs lines 74-76). -/
def duplicate_response (rid : String) : Response :=
  { status := 202, success := true, message := "duplicate_request"
  , error_code := none, notification_id := some rid }

/-- The 500 `Envelope::err("idempotency_error", "redis_error")`
(handlers.rs lines 79-80). -/
def idem_error_response : Response :=
  { status := 500, success := false, message := "redis_error"
  , error_code := some ("idempotency_error"), notification_id := none }

/-- The 502 `Envelope::err("user_lookup_failed", "user_service_error")`
(handlers.rs lines 92-99). -/
def user_lookup_failed_response : Response :=
  { status := 502, success := false, message := "user_service_error"
  , error_code := some ("user_lookup_failed"), notification_id := none }

/-- The 502 `Envelope::err("template_lookup_failed", "template_service_error")`
(handlers.rs lines 109-116). -/
def template_lookup_failed_response : Response :=
  { status := 502, success := false, message := "template_service_error"
  , error_code := some ("template_lookup_failed"), notification_id := none }

/-- The 502 `Envelope::err("queue_publish_failed", "rabbitmq_error")`
(handlers.rs lines 162-164). -/
def publish_failed_response : Response :=
  { status := 502, success := false, message := "rabbitmq_error"
  , error_code := some ("queue_publish_failed"), notification_id := none }

/-- The 202 `Envelope::ok("queued", {notification_id})` (handlers.rs lines
172-174). -/
def queued_response (rid : String) : Response :=
  { status := 202, success := true, message := "queued"
  , error_code := none, notification_id := some rid }

/-- How a handler invocation ends: an HTTP response, or a process crash
(Rust `panic!`, as produced by `.expect`). -/
inductive HandlerOutcome where
  | respond (r : Response)
  | panicked (msg : String)
deriving DecidableEq, Repr

/-- Oracles for one `create_notification` invocation: the wall clock, the
availability of each backend interaction, the outcomes of the two HTTP
lookups (`none` collapses the three identically-handled failure branches),
the fresh correlation id, and whether serialization and publish succeed. -/
structure HandlerEnv where
  now : Nat
  reserve_pool_ok : Bool
  reserve_cmd_ok : Bool
  user_fetch : Option String
  template_fetch : Option String
  correlation_id : String
  ser_ok : Bool
  pub_ok : Bool
  status_pool_ok : Bool
  status_cmd_ok : Bool
deriving DecidableEq, Repr

/-- Result of one handler invocation: the outcome, the key space after
the call, the messages that reached the exchange (with routing key), and
the status writes that were attempted (id, state). -/
structure HandlerResult where
  outcome : HandlerOutcome
  kv : KV
  published : List (String × PublishedMessage)
  status_writes : List (String × String)
deriving DecidableEq, Repr

/-- Embedding of `create_notification` (handlers.rs lines 64-175): idempotency guard,
user fetch, template fetch, message assembly, `serde_json::to_vec(..)
.expect(..)`, publish, then the publish-outcome-dependent best-effort
status write (`let _ = ...`) and response. -/
def create_notification (store : StatusStore) (kv : KV) (env : HandlerEnv)
    (req : CreateNotificationRequest) : HandlerResult :=
  match reserve_idem store kv env.now env.reserve_pool_ok env.reserve_cmd_ok
      req.request_id with
  | .error _ => ⟨.respond idem_error_response, kv, [], []⟩
  | .ok (false, kv1) => ⟨.respond (duplicate_response req.request_id), kv1, [], []⟩
  | .ok (true, kv1) =>
    match env.user_fetch with
    | none => ⟨.respond user_lookup_failed_response, kv1, [], []⟩
    | some user_data =>
      match env.template_fetch with
      | none => ⟨.respond template_lookup_failed_response, kv1, [], []⟩
      | some template_json =>
        let rk := routing_key req.notification_type
        let msg := compose_message req user_data template_json
          env.correlation_id env.now
        if env.ser_ok = false then
          ⟨.panicked ("serialize publish payload"), kv1, [], []⟩
        else if env.pub_ok = false then
          let kv2 := (set_status store kv1 env.now env.status_pool_ok
            env.status_cmd_ok req.request_id ("failed")).toOption.getD kv1
          ⟨.respond publish_failed_response, kv2, [],
            [(req.request_id, "failed")]⟩
        else
          let kv2 := (set_status store kv1 env.now env.status_pool_ok
            env.status_cmd_ok req.request_id ("pending")).toOption.getD kv1
          ⟨.respond (queued_response req.request_id), kv2, [(rk, msg)],
            [(req.request_id, "pending")]⟩

/-- Outcome of the startup connection loop: a connection established at
instant `t`, or giving up (Rust `panic!`).  Either way, `sleeps` records
the backoff delays slept, in order. -/
inductive ConnectResult where
  | connected (t : Nat) (sleeps : List Nat)
  | fatal (sleeps : List Nat)
deriving DecidableEq, Repr

/-- The recorded backoff delays of a `ConnectResult`. -/
def ConnectResult.sleeps : ConnectResult → List Nat
  | .connected _ l => l
  | .fatal l => l

/-- Whether the loop gave up (`panic!`). -/
def ConnectResult.is_fatal : ConnectResult → Bool
  | .connected _ _ => false
  | .fatal _ => true

/-- The retry loop of `connect_with_retry` (main.rs lines 68-83).
`cc i` tells whether the `i`-th connection attempt succeeds; `t` is the
elapsed time, `deadline` the configured deadline.  The current delay is
represented as `d + 1` (it is always at least 1): it starts at 1, and
after each sleep becomes `min (delay * 2) 10`; a failure at or past the
deadline is fatal. -/
def connect_go (cc : Nat → Bool) (deadline i t d : Nat) (acc : List Nat) :
    ConnectResult :=
  if cc i then .connected t acc
  else if h : t < deadline then
    connect_go cc deadline (i + 1) (t + (d + 1)) (min (2 * d + 1) 9)
      (acc ++ [d + 1])
  else .fatal acc
termination_by deadline - t
decreasing_by
  simp_wf
  omega

/-- Embedding of `connect_with_retry(amqp_url, max_secs)` (main.rs lines 68-83):
starts at elapsed time 0 with delay 1. -/
def connect_with_retry (cc : Nat → Bool) (max_secs : Nat) : ConnectResult :=
  connect_go cc max_secs 0 0 0 []

/-- Observable startup result of `main` (main.rs lines 206-211):
the sequence of values stored into the `amqp_ready` flag (initially
false), whether the HTTP server is reached, and whether the process
panicked. -/
structure StartupResult where
  ready_writes : List Bool
  serving : Bool
  panicked : Bool
deriving DecidableEq, Repr

/-- The startup sequence of `main` (main.rs lines 206-224): connect with
retry (panic on deadline), create the channel and declare the topology
(`?` propagates failure, exiting before serving), then store `true` into
`amqp_ready` and start the HTTP server.  `chan_ok` and `decl_ok` are the
outcomes of `create_channel` and `declare_topology`. -/
def main_startup (cc : Nat → Bool) (max_secs : Nat)
    (chan_ok decl_ok : Bool) : StartupResult :=
  match connect_with_retry cc max_secs with
  | .fatal _ => ⟨[], false, true⟩
  | .connected _ _ =>
    if chan_ok = false then ⟨[], false, false⟩
    else if decl_ok = false then ⟨[], false, false⟩
    else ⟨[true], true, false⟩

/-- A sequence of `reserve_idem` calls for one `request_id` against a
healthy backend, at the given instants: returns the reservation outcomes
in order and the final key space. -/
def reserve_seq (s : StatusStore) (kv : KV) (rid : String) :
    List Nat → List Bool × KV
  | [] => ([], kv)
  | t :: ts =>
    match reserve_idem s kv t true true rid with
    | .ok (b, kv1) =>
      let r := reserve_seq s kv1 rid ts
      (b :: r.1, r.2)
    | .error _ => ([], kv)

/-- Concrete store configuration: both TTLs at their 86400-second
default (main.rs lines 196-204). -/
def store_default : StatusStore := ⟨86400, 86400⟩

/-- A concrete notification request used to evaluate the handler. -/
def req_r1 : CreateNotificationRequest :=
  { notification_type := .email, user_id := "u-1"
  , template_code := "welcome", vars := "name=Ada"
  , request_id := "r1", priority := 1, metadata := none }

/-- A fully healthy environment: every backend interaction succeeds. -/
def env_ok : HandlerEnv :=
  { now := 0, reserve_pool_ok := true, reserve_cmd_ok := true
  , user_fetch := some ("USERDATA"), template_fetch := some ("TPLDATA")
  , correlation_id := "cid-1", ser_ok := true, pub_ok := true
  , status_pool_ok := true, status_cmd_ok := true }

/-- Healthy environment except the broker publish fails. -/
def env_pubfail : HandlerEnv := { env_ok with pub_ok := false }

/-- Healthy environment except payload serialization fails. -/
def env_serfail : HandlerEnv := { env_ok with ser_ok := false }

/-- Healthy environment except the `SET NX EX` reservation command
fails (the pool connection itself is fine). -/
def env_cmdfail : HandlerEnv := { env_ok with reserve_cmd_ok := false }

/-- A healthy environment for a retry of the same request, 10 seconds
later. -/
def env_retry : HandlerEnv := { env_ok with now := 10 }

/-- A key space already holding a live reservation for `r1`. -/
def kv_dup : KV := [("idem:r1", ⟨"1", 60⟩)]

theorem kv_find_set_ex_self (kv : KV) (now ttl : Nat) (k v : String) :
    kv_find (set_ex kv now ttl k v) k = some ⟨v, now + ttl⟩ := by
  simp [set_ex, kv_find]

theorem kv_find_erase_ne (kv : KV) (k k' : String) (h : k' ≠ k) :
    kv_find (kv_erase kv k) k' = kv_find kv k' := by
  induction kv with
  | nil => rfl
  | cons p rest ih =>
    obtain ⟨k0, e0⟩ := p
    by_cases h0 : k0 = k
    · have h2 : ¬ (k = k') := fun hc => h hc.symm
      simp [kv_erase, kv_find, h0, h2, ih]
    · by_cases h1 : k0 = k'
      · simp [kv_erase, kv_find, h0, h1, h]
      · simp [kv_erase, kv_find, h0, h1, ih]

theorem kv_find_set_ex_ne (kv : KV) (now ttl : Nat) (k v k' : String)
    (h : k' ≠ k) :
    kv_find (set_ex kv now ttl k v) k' = kv_find kv k' := by
  have h2 : ¬ (k = k') := fun hc => h hc.symm
  simp [set_ex, kv_find, h2, kv_find_erase_ne kv k k' h]

theorem lookup_live_set_ex_self (kv : KV) (now ttl t : Nat) (k v : String) :
    lookup_live (set_ex kv now ttl k v) t k =
      if t < now + ttl then some v else none := by
  simp [lookup_live, kv_find_set_ex_self]

theorem lookup_live_set_ex_ne (kv : KV) (now ttl t : Nat) (k v k' : String)
    (h : k' ≠ k) :
    lookup_live (set_ex kv now ttl k v) t k' = lookup_live kv t k' := by
  simp [lookup_live, kv_find_set_ex_ne kv now ttl k v k' h]

theorem string_data_append (s t : String) :
    (s ++ t).data = s.data ++ t.data := by
  cases s
  cases t
  rfl

/-- The two Redis key namespaces of the gateway are disjoint: an
idempotency key never equals a status key. -/
theorem idem_key_ne_status_key (a b : String) :
    ("idem:" ++ a) ≠ ("status:" ++ b) := by
  intro h
  have hd := congrArg String.data h
  rw [string_data_append, string_data_append] at hd
  simp at hd

/-- One backoff step: if the current delay is `min (2 ^ L) 10` then the
next delay (`min (delay * 2) 10`, in the `d + 1` representation) is
`min (2 ^ (L + 1)) 10`. -/
theorem next_delay_eq (L d : Nat) (h : d + 1 = min (2 ^ L) 10) :
    min (2 * d + 1) 9 + 1 = min (2 ^ (L + 1)) 10 := by
  have hp : 0 < 2 ^ L := Nat.pos_pow_of_pos L (by norm_num)
  have hs : 2 ^ (L + 1) = 2 * 2 ^ L := by
    rw [pow_succ]
    ring
  omega

/-- Backoff invariant of the retry loop: if the accumulated sleeps are
`min (2 ^ j) 10` at each index `j` and the pending delay continues the
pattern, then every sleep the loop ever records is `min (2 ^ j) 10`. -/
theorem connect_go_sleeps_spec (cc : Nat → Bool) (deadline : Nat) :
    ∀ n i t d acc, deadline - t ≤ n →
      d + 1 = min (2 ^ acc.length) 10 →
      (∀ j, j < acc.length → acc.getD j 0 = min (2 ^ j) 10) →
      ∀ j, j < (connect_go cc deadline i t d acc).sleeps.length →
        (connect_go cc deadline i t d acc).sleeps.getD j 0 =
          min (2 ^ j) 10 := by
  intro n
  induction n with
  | zero =>
    intro i t d acc hn hd hacc j hj
    rw [connect_go] at hj ⊢
    by_cases hc : cc i
    · simp only [hc, if_true, ConnectResult.sleeps] at hj ⊢
      exact hacc j hj
    · have hlt : ¬ t < deadline := by omega
      simp only [hc, hlt, if_false, dif_neg, Bool.false_eq_true,
        ConnectResult.sleeps] at hj ⊢
      exact hacc j hj
  | succ n ih =>
    intro i t d acc hn hd hacc j hj
    rw [connect_go] at hj ⊢
    by_cases hc : cc i
    · simp only [hc, if_true, ConnectResult.sleeps] at hj ⊢
      exact hacc j hj
    · by_cases hlt : t < deadline
      · simp only [hc, Bool.false_eq_true, if_false, hlt, dif_pos] at hj ⊢
        refine ih (i + 1) (t + (d + 1)) (min (2 * d + 1) 9) (acc ++ [d + 1])
          (by omega) ?_ ?_ j hj
        · have := next_delay_eq acc.length d hd
          simpa [List.length_append] using this
        · intro j' hj'
          rw [List.length_append, List.length_singleton] at hj'
          rcases Nat.lt_or_ge j' acc.length with hlt' | hge
          · rw [List.getD_append _ _ _ _ hlt']
            exact hacc j' hlt'
          · have hj'eq : j' = acc.length := by omega
            subst hj'eq
            rw [List.getD_append_right _ _ _ _ hge]
            simpa using hd
      · simp only [hc, Bool.false_eq_true, if_false, hlt, dif_neg,
          ConnectResult.sleeps] at hj ⊢
        exact hacc j hj

/-- Repeated reservations of an already-reserved id within its TTL
window: every call observes the live sentinel, returns `false`, and
leaves the key space unchanged. -/
theorem reserve_seq_within_window (s : StatusStore) (kv : KV) (rid : String)
    (t0 : Nat) (ts : List Nat)
    (hts : ∀ t ∈ ts, t < t0 + s.idem_ttl) :
    reserve_seq s (set_ex kv t0 s.idem_ttl ("idem:" ++ rid) ("1")) rid ts =
      (ts.map (fun _ => false),
        set_ex kv t0 s.idem_ttl ("idem:" ++ rid) ("1")) := by
  induction ts with
  | nil => rfl
  | cons t ts ih =>
    have hlt := hts t (List.mem_cons_self t ts)
    have hlive : lookup_live (set_ex kv t0 s.idem_ttl ("idem:" ++ rid) ("1"))
        t ("idem:" ++ rid) = some ("1") := by
      rw [lookup_live_set_ex_self]
      simp [hlt]
    have ihr := ih (fun t' ht' => hts t' (List.mem_cons_of_mem t ht'))
    simp [reserve_seq, reserve_idem, set_nx_ex, hlive, ihr]

/-- Claim C1: for every request id, among any sequence of `reserve_idem`
calls within the TTL window against the atomic set-if-not-exists backend,
exactly the first call returns Reserved (`true`) and every subsequent
call returns Duplicate (`false`); once the TTL has expired the same id is
reservable again. -/
theorem C1_reserve_exactly_once_per_window (s : StatusStore) (kv : KV)
    (rid : String) (t0 t2 : Nat) (ts : List Nat)
    (h0 : lookup_live kv t0 ("idem:" ++ rid) = none)
    (hts : ∀ t ∈ ts, t < t0 + s.idem_ttl)
    (h2 : t0 + s.idem_ttl ≤ t2) :
    (reserve_seq s kv rid (t0 :: ts)).1 =
      true :: ts.map (fun _ => false) ∧
    ∃ kv2, reserve_idem s (reserve_seq s kv rid (t0 :: ts)).2 t2 true true
      rid = .ok (true, kv2) := by
  have hfirst : reserve_idem s kv t0 true true rid =
      .ok (true, set_ex kv t0 s.idem_ttl ("idem:" ++ rid) ("1")) := by
    simp [reserve_idem, set_nx_ex, h0]
  have hseq := reserve_seq_within_window s kv rid t0 ts hts
  have hfin : reserve_seq s kv rid (t0 :: ts) =
      (true :: ts.map (fun _ => false),
        set_ex kv t0 s.idem_ttl ("idem:" ++ rid) ("1")) := by
    simp [reserve_seq, hfirst, hseq]
  constructor
  · rw [hfin]
  · rw [hfin]
    have hdead : lookup_live
        (set_ex kv t0 s.idem_ttl ("idem:" ++ rid) ("1")) t2
        ("idem:" ++ rid) = none := by
      rw [lookup_live_set_ex_self, if_neg (by omega)]
    exact ⟨set_ex (set_ex kv t0 s.idem_ttl ("idem:" ++ rid) ("1")) t2
        s.idem_ttl ("idem:" ++ rid) ("1"),
      by simp [reserve_idem, set_nx_ex, hdead]⟩

theorem C1_witness :
    (reserve_seq ⟨60, 60⟩ [] ("r1") [0, 10, 59]).1 =
      [true, false, false] ∧
    ∃ kv2, reserve_idem ⟨60, 60⟩ (reserve_seq ⟨60, 60⟩ [] ("r1")
      [0, 10, 59]).2 60 true true ("r1") = .ok (true, kv2) := by
  have h := C1_reserve_exactly_once_per_window ⟨60, 60⟩ [] ("r1") 0 60
    [10, 59] rfl
    (by
      intro t ht
      simp at ht
      rcases ht with h1 | h1 <;> subst h1 <;> decide)
    (by decide)
  refine ⟨?_, h.2⟩
  simpa using h.1

/-- Claim C2: in `create_notification`, once the publish step is reached,
a successful publish is followed by a status write of `pending` and a
202 response, and a failed publish by a best-effort status write of
`failed` and a 502 response; the HTTP class matches the publish outcome
exactly. -/
theorem C2_response_matches_publish_outcome (store : StatusStore)
    (kv : KV) (env : HandlerEnv) (req : CreateNotificationRequest)
    (u tp : String)
    (hrp : env.reserve_pool_ok = true) (hrc : env.reserve_cmd_ok = true)
    (hfree : lookup_live kv env.now ("idem:" ++ req.request_id) = none)
    (hu : env.user_fetch = some u) (ht : env.template_fetch = some tp)
    (hs : env.ser_ok = true) :
    (env.pub_ok = true →
      (create_notification store kv env req).status_writes =
        [(req.request_id, "pending")] ∧
      (create_notification store kv env req).outcome =
        .respond (queued_response req.request_id) ∧
      (queued_response req.request_id).status = 202) ∧
    (env.pub_ok = false →
      (create_notification store kv env req).status_writes =
        [(req.request_id, "failed")] ∧
      (create_notification store kv env req).outcome =
        .respond publish_failed_response ∧
      publish_failed_response.status = 502) := by
  constructor <;> intro hp <;>
    simp [create_notification, reserve_idem, set_nx_ex, hrp, hrc, hfree,
      hu, ht, hs, hp, queued_response, publish_failed_response]

theorem C2_witness :
    (create_notification store_default [] env_ok req_r1).outcome =
      .respond (queued_response ("r1")) ∧
    (create_notification store_default [] env_ok req_r1).status_writes =
      [(("r1"), ("pending"))] ∧
    (create_notification store_default [] env_pubfail req_r1).outcome =
      .respond publish_failed_response ∧
    (create_notification store_default [] env_pubfail req_r1).status_writes
      = [(("r1"), ("failed"))] := by
  have h1 := C2_response_matches_publish_outcome store_default [] env_ok
    req_r1 ("USERDATA") ("TPLDATA") rfl rfl rfl rfl rfl rfl
  have h2 := C2_response_matches_publish_outcome store_default []
    env_pubfail req_r1 ("USERDATA") ("TPLDATA") rfl rfl rfl rfl rfl rfl
  exact ⟨(h1.1 rfl).2.1, (h1.1 rfl).1, (h2.2 rfl).2.1, (h2.2 rfl).1⟩

/-- Claim C3 (code bug): the claim says `reserve_idem` fails with
`BackendUnavailable` whenever the store cannot be reached or the
reservation command fails, never reporting Duplicate for a backend
failure.  The code swallows a failed `SET NX EX` with `unwrap_or(false)`
(status.rs line 34): with the pool reachable but the command failing it
returns `Ok(false)` — Duplicate — and the handler then answers with the
202 duplicate response instead of a 5xx, contradicting the claim and the
function's own doc comment ("returns true if we reserved, false if
duplicate"). -/
theorem C3_command_failure_reported_as_duplicate :
    reserve_idem store_default [] 0 true false ("r1") = .ok (false, []) ∧
    (create_notification store_default [] env_cmdfail req_r1).outcome =
      .respond (duplicate_response ("r1")) ∧
    (duplicate_response ("r1")).status = 202 := by
  exact ⟨rfl, rfl, rfl⟩

/-- Claim C4 (code bug): the claim says a serialization failure is
handled as `SerializationFailed` and surfaced as a 5xx, never unwrapped
into a crash.  The code calls `serde_json::to_vec(&msg).expect(..)`
(handlers.rs line 143): when serialization fails the handler panics
instead of responding. -/
theorem C4_serialization_failure_panics :
    (create_notification store_default [] env_serfail req_r1).outcome =
      .panicked ("serialize publish payload") := by
  exact rfl

/-- Claim C5 counterexample: the claim says `get_status` returns a
StatusRecord containing both the state and its `updated_at` timestamp,
written by `set_status`.  In the code (status.rs lines 38-54) the write
stores only the bare state string: writes performed at two different
instants (0 and 500) yield records that read back as exactly the same
bare string `"pending"`, so no `updated_at` timestamp exists in the
record at all. -/
theorem C5_counterexample :
    get_status store_default
      ((set_status store_default [] 0 true true ("n1")
        ("pending")).toOption.getD []) 0 true true ("n1") =
      .ok (some ("pending")) ∧
    get_status store_default
      ((set_status store_default [] 500 true true ("n1")
        ("pending")).toOption.getD []) 501 true true ("n1") =
      .ok (some ("pending")) := by
  exact ⟨rfl, rfl⟩

/-- Claim C5 (amended): `set_status` writes the state and its expiry
atomically as a single pipelined operation — after a healthy write the
stored entry pairs the state with the refreshed expiry in one step, and
`get_status` observes exactly that state while it is live and nothing
once it expires.  No `updated_at` timestamp is stored or returned: the
record is the bare state string. -/
theorem C5_set_status_atomic_pipelined (s : StatusStore) (kv : KV)
    (now t : Nat) (nid st : String) :
    ∃ kv2, set_status s kv now true true nid st = .ok kv2 ∧
      kv_find kv2 ("status:" ++ nid) = some ⟨st, now + s.status_ttl⟩ ∧
      (t < now + s.status_ttl →
        get_status s kv2 t true true nid = .ok (some st)) ∧
      (now + s.status_ttl ≤ t →
        get_status s kv2 t true true nid = .ok none) := by
  refine ⟨set_ex kv now s.status_ttl ("status:" ++ nid) st, ?_, ?_, ?_, ?_⟩
  · simp [set_status]
  · exact kv_find_set_ex_self kv now s.status_ttl ("status:" ++ nid) st
  · intro hlt
    simp [get_status, lookup_live_set_ex_self, hlt]
  · intro hge
    have hdead : lookup_live
        (set_ex kv now s.status_ttl ("status:" ++ nid) st) t
        ("status:" ++ nid) = none := by
      rw [lookup_live_set_ex_self, if_neg (by omega)]
    simp [get_status, hdead]

theorem C5_witness :
    get_status store_default
      ((set_status store_default [] 0 true true ("n1")
        ("pending")).toOption.getD []) 10 true true ("n1") =
      .ok (some ("pending")) := by
  obtain ⟨kv2, heq, hfind, hlt, hge⟩ :=
    C5_set_status_atomic_pipelined store_default [] 0 10 ("n1") ("pending")
  rw [heq]
  simpa [Except.toOption] using hlt (by decide)

/-- Claim C6: for every request accepted onto the publish path, the
composed message has `attempt = 0`, `max_attempts = 3`, the fresh
correlation id and `created_at` supplied at composition time, and its
routing key is derived by the exhaustive closed-set mapping
`email ↦ "email"`, `push ↦ "push"` (no default branch: `routing_key` is
a total match over the two-constructor enum). -/
theorem C6_composed_message_fields (store : StatusStore) (kv : KV)
    (env : HandlerEnv) (req : CreateNotificationRequest) (u tp : String)
    (hrp : env.reserve_pool_ok = true) (hrc : env.reserve_cmd_ok = true)
    (hfree : lookup_live kv env.now ("idem:" ++ req.request_id) = none)
    (hu : env.user_fetch = some u) (ht : env.template_fetch = some tp)
    (hs : env.ser_ok = true) (hp : env.pub_ok = true) :
    (create_notification store kv env req).published =
      [(routing_key req.notification_type,
        compose_message req u tp env.correlation_id env.now)] ∧
    (compose_message req u tp env.correlation_id env.now).attempt = 0 ∧
    (compose_message req u tp env.correlation_id env.now).max_attempts =
      3 ∧
    (compose_message req u tp env.correlation_id env.now).correlation_id =
      env.correlation_id ∧
    (compose_message req u tp env.correlation_id env.now).created_at =
      env.now ∧
    routing_key .email = "email" ∧ routing_key .push = "push" ∧
    (∀ nt : NotificationType, nt = .email ∨ nt = .push) := by
  refine ⟨?_, rfl, rfl, rfl, rfl, rfl, rfl, ?_⟩
  · simp [create_notification, reserve_idem, set_nx_ex, hrp, hrc, hfree,
      hu, ht, hs, hp]
  · intro nt
    cases nt
    · exact Or.inl rfl
    · exact Or.inr rfl

theorem C6_witness :
    (create_notification store_default [] env_ok req_r1).published =
      [(routing_key NotificationType.email,
        compose_message req_r1 ("USERDATA") ("TPLDATA") ("cid-1") 0)] := by
  exact (C6_composed_message_fields store_default [] env_ok req_r1
    ("USERDATA") ("TPLDATA") rfl rfl rfl rfl rfl rfl rfl).1

/-- Claim C7: when the idempotency guard reports Duplicate, the handler
returns a 202 non-failure response carrying the request id as the
notification id, publishes nothing, writes no status, and leaves the key
space untouched. -/
theorem C7_duplicate_202_no_publish (store : StatusStore) (kv : KV)
    (env : HandlerEnv) (req : CreateNotificationRequest) (v : String)
    (hrp : env.reserve_pool_ok = true) (hrc : env.reserve_cmd_ok = true)
    (hdup : lookup_live kv env.now ("idem:" ++ req.request_id) = some v) :
    (create_notification store kv env req).outcome =
      .respond (duplicate_response req.request_id) ∧
    (duplicate_response req.request_id).status = 202 ∧
    (duplicate_response req.request_id).success = true ∧
    (duplicate_response req.request_id).notification_id =
      some req.request_id ∧
    (create_notification store kv env req).published = [] ∧
    (create_notification store kv env req).status_writes = [] ∧
    (create_notification store kv env req).kv = kv := by
  refine ⟨?_, rfl, rfl, rfl, ?_, ?_, ?_⟩ <;>
    simp [create_notification, reserve_idem, set_nx_ex, hrp, hrc, hdup]

theorem C7_witness :
    (create_notification store_default kv_dup env_retry req_r1).outcome =
      .respond (duplicate_response ("r1")) ∧
    (create_notification store_default kv_dup env_retry req_r1).published
      = [] := by
  have h := C7_duplicate_202_no_publish store_default kv_dup env_retry
    req_r1 ("1") rfl rfl (by decide)
  exact ⟨h.1, h.2.2.2.2.1⟩

/-- Claim C8: every backoff delay slept by the startup retry loop is
`min (2 ^ j) 10` at index `j` — starting at 1, doubling after each
failure, capped at 10; a connect failure past the deadline is fatal and
the process never serves (the readiness flag is never written); on a
successful startup the flag is written `true` exactly once, with no
write ever returning it to `false`. -/
theorem C8_backoff_and_readiness (cc : Nat → Bool) (max_secs : Nat)
    (chan_ok decl_ok : Bool) :
    (∀ j, j < (connect_with_retry cc max_secs).sleeps.length →
      (connect_with_retry cc max_secs).sleeps.getD j 0 =
        min (2 ^ j) 10) ∧
    ((connect_with_retry cc max_secs).is_fatal = true →
      (main_startup cc max_secs chan_ok decl_ok).serving = false ∧
      (main_startup cc max_secs chan_ok decl_ok).ready_writes = []) ∧
    ((main_startup cc max_secs chan_ok decl_ok).serving = true →
      (main_startup cc max_secs chan_ok decl_ok).ready_writes =
        [true]) := by
  refine ⟨?_, ?_, ?_⟩
  · intro j hj
    exact connect_go_sleeps_spec cc max_secs max_secs 0 0 0 []
      (by omega) (by norm_num)
      (by
        intro j' hj'
        simp at hj') j hj
  · intro hf
    cases hcase : connect_with_retry cc max_secs with
    | connected t l =>
      rw [hcase] at hf
      simp [ConnectResult.is_fatal] at hf
    | fatal l =>
      constructor <;> simp [main_startup, hcase]
  · intro hserv
    cases hcase : connect_with_retry cc max_secs with
    | fatal l =>
      rw [main_startup, hcase] at hserv
      simp at hserv
    | connected t l =>
      rw [main_startup, hcase] at hserv ⊢
      by_cases hc : chan_ok = false
      · simp [hc] at hserv
      · by_cases hd : decl_ok = false
        · simp [hc, hd] at hserv
        · simp [hc, hd]

theorem C8_witness :
    (connect_with_retry (fun j => j == 5) 30).sleeps =
      [1, 2, 4, 8, 10] ∧
    (connect_with_retry (fun j => j == 5) 30).sleeps.getD 4 0 =
      min (2 ^ 4) 10 ∧
    (main_startup (fun _ => false) 3 true true).serving = false ∧
    (main_startup (fun _ => false) 3 true true).ready_writes = [] ∧
    (main_startup (fun j => j == 5) 30 true true).ready_writes =
      [true] := by
  have h1 := C8_backoff_and_readiness (fun j => j == 5) 30 true true
  have h2 := C8_backoff_and_readiness (fun _ => false) 3 true true
  refine ⟨?_, ?_, ?_, ?_, ?_⟩
  · simp [connect_with_retry, connect_go, ConnectResult.sleeps]
  · exact h1.1 4
      (by simp [connect_with_retry, connect_go, ConnectResult.sleeps])
  · exact (h2.2.1
      (by simp [connect_with_retry, connect_go,
        ConnectResult.is_fatal])).1
  · exact (h2.2.1
      (by simp [connect_with_retry, connect_go,
        ConnectResult.is_fatal])).2
  · exact h1.2.2
      (by simp [main_startup, connect_with_retry, connect_go])

/-- Claim C9 counterexample: the claim says the published wire message
is exactly the lean form — the request fields plus `correlation_id`,
`attempt`, `max_attempts`, `created_at` — with no implicit enrichment.
Evaluating the handler on a healthy environment whose user lookup
returns `"USERDATA"` and whose template lookup returns `"TPLDATA"`, the
published message carries both fetched payloads in its `user` and
`template` fields (handlers.rs lines 131 and 133), so the wire form is
the enriched variant, not the lean one. -/
theorem C9_counterexample :
    ((create_notification store_default [] env_ok req_r1).published.map
      (fun p => (p.2.user, p.2.template))) =
      [(("USERDATA"), ("TPLDATA"))] := by
  exact rfl

/-- Claim C9 (amended): the published wire message is the enriched form:
the request fields plus the system-added `correlation_id`, `attempt = 0`,
`max_attempts = 3` and `created_at`, and additionally the user data and
template data fetched from the downstream services before publishing. -/
theorem C9_enriched_wire_message (store : StatusStore) (kv : KV)
    (env : HandlerEnv) (req : CreateNotificationRequest) (u tp : String)
    (hrp : env.reserve_pool_ok = true) (hrc : env.reserve_cmd_ok = true)
    (hfree : lookup_live kv env.now ("idem:" ++ req.request_id) = none)
    (hu : env.user_fetch = some u) (ht : env.template_fetch = some tp)
    (hs : env.ser_ok = true) (hp : env.pub_ok = true) :
    (create_notification store kv env req).published =
      [(routing_key req.notification_type,
        { request_id := req.request_id
        , correlation_id := env.correlation_id
        , notification_type := routing_key req.notification_type
        , user_id := req.user_id
        , user := u
        , template_code := req.template_code
        , template := tp
        , vars := req.vars
        , priority := req.priority
        , metadata := req.metadata
        , attempt := 0
        , max_attempts := 3
        , created_at := env.now })] := by
  simp [create_notification, reserve_idem, set_nx_ex, hrp, hrc, hfree,
    hu, ht, hs, hp, compose_message]

theorem C9_witness :
    (create_notification store_default [] env_ok req_r1).published =
      [(("email"),
        { request_id := "r1", correlation_id := "cid-1"
        , notification_type := "email", user_id := "u-1"
        , user := "USERDATA", template_code := "welcome"
        , template := "TPLDATA", vars := "name=Ada", priority := 1
        , metadata := none, attempt := 0, max_attempts := 3
        , created_at := 0 })] := by
  exact C9_enriched_wire_message store_default [] env_ok req_r1
    ("USERDATA") ("TPLDATA") rfl rfl rfl rfl rfl rfl rfl

/-- Claim C10: if a request id is successfully reserved but the publish
fails (502 returned, nothing published), the reservation is not
released: a retry of the same request id within the TTL window is
answered as a 202 duplicate and again publishes nothing, even though no
message ever reached the exchange. -/
theorem C10_reservation_survives_failed_publish (store : StatusStore)
    (kv : KV) (env1 env2 : HandlerEnv) (req : CreateNotificationRequest)
    (u tp : String)
    (hrp1 : env1.reserve_pool_ok = true)
    (hrc1 : env1.reserve_cmd_ok = true)
    (hfree : lookup_live kv env1.now ("idem:" ++ req.request_id) = none)
    (hu : env1.user_fetch = some u) (ht : env1.template_fetch = some tp)
    (hs : env1.ser_ok = true) (hp : env1.pub_ok = false)
    (hrp2 : env2.reserve_pool_ok = true)
    (hrc2 : env2.reserve_cmd_ok = true)
    (hwin : env2.now < env1.now + store.idem_ttl) :
    (create_notification store kv env1 req).outcome =
      .respond publish_failed_response ∧
    (create_notification store kv env1 req).published = [] ∧
    (create_notification store
        (create_notification store kv env1 req).kv env2 req).outcome =
      .respond (duplicate_response req.request_id) ∧
    (create_notification store
        (create_notification store kv env1 req).kv env2 req).published =
      [] := by
  have hkv1 : (create_notification store kv env1 req).kv =
      (set_status store
        (set_ex kv env1.now store.idem_ttl ("idem:" ++ req.request_id)
          ("1"))
        env1.now env1.status_pool_ok env1.status_cmd_ok req.request_id
        ("failed")).toOption.getD
        (set_ex kv env1.now store.idem_ttl ("idem:" ++ req.request_id)
          ("1")) := by
    simp [create_notification, reserve_idem, set_nx_ex, hrp1, hrc1,
      hfree, hu, ht, hs, hp]
  have hlive1 : lookup_live
      (set_ex kv env1.now store.idem_ttl ("idem:" ++ req.request_id)
        ("1")) env2.now ("idem:" ++ req.request_id) = some ("1") := by
    rw [lookup_live_set_ex_self, if_pos hwin]
  have hlive : lookup_live ((create_notification store kv env1 req).kv)
      env2.now ("idem:" ++ req.request_id) = some ("1") := by
    rw [hkv1]
    by_cases hsp : env1.status_pool_ok = false
    · simpa [set_status, hsp] using hlive1
    · by_cases hsc : env1.status_cmd_ok = false
      · simpa [set_status, hsp, hsc] using hlive1
      · simp [set_status, hsp, hsc, Except.toOption]
        rw [lookup_live_set_ex_ne _ _ _ _ _ _ _
          (idem_key_ne_status_key req.request_id req.request_id)]
        exact hlive1
  refine ⟨?_, ?_, ?_, ?_⟩
  · simp [create_notification, reserve_idem, set_nx_ex, hrp1, hrc1,
      hfree, hu, ht, hs, hp]
  · simp [create_notification, reserve_idem, set_nx_ex, hrp1, hrc1,
      hfree, hu, ht, hs, hp]
  · generalize hK : (create_notification store kv env1 req).kv = K
      at hlive
    simp [create_notification, reserve_idem, set_nx_ex, hrp2, hrc2,
      hlive]
  · generalize hK : (create_notification store kv env1 req).kv = K
      at hlive
    simp [create_notification, reserve_idem, set_nx_ex, hrp2, hrc2,
      hlive]

theorem C10_witness :
    (create_notification store_default [] env_pubfail req_r1).outcome =
      .respond publish_failed_response ∧
    (create_notification store_default [] env_pubfail req_r1).published =
      [] ∧
    (create_notification store_default
        (create_notification store_default [] env_pubfail req_r1).kv
        env_retry req_r1).outcome =
      .respond (duplicate_response ("r1")) ∧
    (create_notification store_default
        (create_notification store_default [] env_pubfail req_r1).kv
        env_retry req_r1).published = [] := by
  exact C10_reservation_survives_failed_publish store_default []
    env_pubfail env_retry req_r1 ("USERDATA") ("TPLDATA")
    rfl rfl rfl rfl rfl rfl rfl rfl rfl (by decide)

end NotifGateway
